import Mathlib

set_option maxHeartbeats 1000000

/-!
Verification of the SatBot backend relay (src/sat-bot/main.go).

The Go program is shallowly embedded below.  Pure helpers of the Go standard
library that the program relies on (strings.TrimSpace, the encoding/json
decoder semantics for the two struct shapes the program decodes into, and the
fixed-precision duration formatting) are embedded at the level of detail the
program exercises.  I/O (the wall clock, the upstream HTTP exchange, the
process environment and the context file) enters as explicit oracle
parameters of the handler function, so every definition is executable.
-/

namespace SatBot

/-- Whitespace predicate of Go unicode.IsSpace: the Unicode White_Space code
points, which is what strings.TrimSpace trims from both ends. -/
def goIsSpace (c : Char) : Bool :=
  decide ((0x09 ≤ c.toNat ∧ c.toNat ≤ 0x0D) ∨ c.toNat = 0x20 ∨ c.toNat = 0x85 ∨
    c.toNat = 0xA0 ∨ c.toNat = 0x1680 ∨ (0x2000 ≤ c.toNat ∧ c.toNat ≤ 0x200A) ∨
    c.toNat = 0x2028 ∨ c.toNat = 0x2029 ∨ c.toNat = 0x202F ∨ c.toNat = 0x205F ∨
    c.toNat = 0x3000)

/-- Go strings.TrimSpace: drop leading and trailing whitespace. -/
def goTrimSpace (s : String) : String :=
  String.mk (((s.toList.dropWhile goIsSpace).reverse.dropWhile goIsSpace).reverse)

/-- ASCII lower-casing of one character, as used by the encoding/json field
name folder (only ASCII letters fold). -/
def asciiLower (c : Char) : Char :=
  if 0x41 ≤ c.toNat ∧ c.toNat ≤ 0x5A then Char.ofNat (c.toNat + 0x20) else c

/-- encoding/json field-name matching: keys are matched against a struct
field tag exactly or ASCII-case-insensitively. -/
def eqFold (a b : String) : Bool :=
  a.toList.map asciiLower == b.toList.map asciiLower

/-- A JSON value.  Object fields are kept in document order, as the streaming
decoder of encoding/json visits them. -/
inductive Json where
  | null
  | bool (b : Bool)
  | num (n : Int)
  | str (s : String)
  | arr (elems : List Json)
  | obj (fields : List (String × Json))

/-- Decoding the fields of a JSON object into the Go struct
`Message { Message string (json tag "message") }` with DisallowUnknownFields
set: a key matching the tag (ASCII-case-insensitively) must carry a string
(sets the field; a later duplicate overwrites) or null (leaves the field);
any other key is an unknown field and fails the decode. -/
def decodeMessageFields (acc : String) : List (String × Json) → Except Unit String
  | [] => .ok acc
  | (k, v) :: rest =>
    if eqFold k "message" then
      match v with
      | .str s => decodeMessageFields s rest
      | .null => decodeMessageFields acc rest
      | _ => .error ()
    else .error ()

/-- decoder.Decode(&msg) with DisallowUnknownFields, for the Message struct:
null leaves the zero value, an object is decoded field by field, any other
top-level value is a type error. -/
def decodeMessage : Json → Except Unit String
  | .null => .ok ""
  | .obj fields => decodeMessageFields "" fields
  | _ => .error ()

/-- json.Unmarshal of an inner message object field list into
`struct { Content string (json tag "content") }`: a "content" key needs a
string or null; unknown keys are ignored (no DisallowUnknownFields here). -/
def parseContentFields (acc : String) : List (String × Json) → Except Unit String
  | [] => .ok acc
  | (k, v) :: rest =>
    if eqFold k "content" then
      match v with
      | .str s => parseContentFields s rest
      | .null => parseContentFields acc rest
      | _ => .error ()
    else parseContentFields acc rest

/-- json.Unmarshal of the value under a "message" key into the inner struct:
null leaves the current value, an object decodes its fields, anything else is
a type error. -/
def parseMessageObj (acc : String) : Json → Except Unit String
  | .null => .ok acc
  | .obj fs => parseContentFields acc fs
  | _ => .error ()

/-- json.Unmarshal of one element of the "choices" array into
`struct { Message struct { Content string } }`; unknown keys are ignored. -/
def parseChoiceFields (acc : String) : List (String × Json) → Except Unit String
  | [] => .ok acc
  | (k, v) :: rest =>
    if eqFold k "message" then
      match parseMessageObj acc v with
      | .ok s => parseChoiceFields s rest
      | .error e => .error e
    else parseChoiceFields acc rest

/-- One candidate completion: its message content, or a type error. -/
def parseChoice : Json → Except Unit String
  | .null => .ok ""
  | .obj fs => parseChoiceFields "" fs
  | _ => .error ()

/-- Element-wise decode of the "choices" array. -/
def parseChoices : List Json → Except Unit (List String)
  | [] => .ok []
  | j :: rest => do
      let s ← parseChoice j
      let ss ← parseChoices rest
      pure (s :: ss)

/-- json.Unmarshal of the top-level object fields into the ChatCompletion
struct: a "choices" key needs an array (or null, giving a nil slice);
unknown keys are ignored. -/
def parseChatCompletionFields (acc : List String) :
    List (String × Json) → Except Unit (List String)
  | [] => .ok acc
  | (k, v) :: rest =>
    if eqFold k "choices" then
      match v with
      | .null => parseChatCompletionFields [] rest
      | .arr xs =>
        match parseChoices xs with
        | .ok ss => parseChatCompletionFields ss rest
        | .error e => .error e
      | _ => .error ()
    else parseChatCompletionFields acc rest

/-- json.Unmarshal(body, &chatCompletion): yields the list of candidate
contents (`Choices[i].Message.Content`), or a parse error. -/
def parseChatCompletion : Json → Except Unit (List String)
  | .null => .ok []
  | .obj fs => parseChatCompletionFields [] fs
  | _ => .error ()

/-- The decimal digit character of n mod 10. -/
def digitChar (n : Nat) : Char := Char.ofNat (0x30 + n % 10)

/-- Zero-padded four decimal digits of n < 10000 (the fractional part that
"%.4f" prints). -/
def pad4 (n : Nat) : String :=
  String.mk [digitChar (n / 1000), digitChar (n / 100), digitChar (n / 10), digitChar n]

/-- fmt.Sprintf "%.4f" of a non-negative duration given in units of 10^-4
seconds (the wall clock is an oracle; the value arrives already rounded to
the 10^-4 s resolution that the format prints). -/
def formatFixed4 (tenthMillis : Nat) : String :=
  toString (tenthMillis / 10000) ++ "." ++ pad4 (tenthMillis % 10000)

/-- One turn of the upstream conversation. -/
structure ChatMsg where
  role : String
  content : String
deriving DecidableEq, Repr

/-- The fixed system-persona template of the handler, with the static context
interpolated at its %s hole. -/
def personaTemplate (ctx : String) : String :=
  "You are SatBot, the friendly and knowledgeable AI assistant for the Thapar Institute of Engineering and Technology\x27s annual techno cultural fest i.e Saturnalia.\n\nYour characteristics:\n- You\x27re enthusiastic about Saturnalia and its events\n- You provide accurate and helpful information\n- You speak in a clear, friendly manner\n- Saturnalia is a celebration of technology, culture, and creativity\n-It is golden jubilee year of Saturnalia\n\nGuidelines:\n- Answer questions based on the provided context\n- Keep responses concise but informative\n- Use natural, conversational language\n- If asked about topics outside the context, politely explain that you can only discuss Saturnalia Centre related matters\n- Always maintain a helpful and positive attitude\n\n\n\nInformation, facts and keypoints for reference to answer the question asked: "
    ++ ctx ++ "\n"

/-- groqPrompt: fmt.Sprintf with the caller message at the %s hole. -/
def userPrompt (msg : String) : String :=
  "User Query: " ++ msg ++ "\n\nAnswer:"

/-- The two-turn conversation sent upstream: the system persona (with the
static context interpolated) followed by the wrapped user query. -/
def composePrompt (ctx msg : String) : List ChatMsg :=
  [⟨"system", personaTemplate ctx⟩, ⟨"user", userPrompt msg⟩]

/-- Body of an HTTP response of the service: an ErrorResponse or a
ChatResponse. -/
inductive RespBody where
  | err (e : String)
  | chat (response responseTime : String)
deriving DecidableEq, Repr

/-- An HTTP response of the service. -/
structure HttpResponse where
  status : Nat
  body : RespBody
deriving DecidableEq, Repr

/-- The upstream exchange as an oracle: transport failure (connection error
or 30 s timeout), or a reply with a status code and a body (none when the
body is not valid JSON). -/
inductive UpstreamReply where
  | failure
  | reply (status : Nat) (body : Option Json)

/-- An inbound request: its method and its body (none when the body is not a
single valid JSON value). -/
structure InboundRequest where
  method : String
  body : Option Json

/-- What one run of the handler did: the response written, how many upstream
calls were issued, the conversation sent upstream (if any), and the upstream
status and raw body captured by the internal error log (if any). -/
structure HandlerResult where
  response : HttpResponse
  upstreamCalls : Nat
  sentMessages : Option (List ChatMsg)
  loggedUpstream : Option (Nat × Option Json)

/-- chatCompletionHandler of main.go: the full request pipeline, with the
static context, the GROQ_API_KEY value read from the environment at call time
("" when unset, as os.Getenv reports absence), the upstream exchange and the
measured elapsed time as oracle inputs. -/
def chatCompletionHandler (ctx apiKey : String) (req : InboundRequest)
    (upstream : UpstreamReply) (elapsed : Nat) : HandlerResult :=
  if req.method ≠ "POST" then
    ⟨⟨405, .err "Method not allowed"⟩, 0, none, none⟩
  else match req.body with
  | none => ⟨⟨400, .err "Invalid request format"⟩, 0, none, none⟩
  | some j =>
    match decodeMessage j with
    | .error _ => ⟨⟨400, .err "Invalid request format"⟩, 0, none, none⟩
    | .ok message =>
      if goTrimSpace message = "" then
        ⟨⟨400, .err "Message cannot be empty"⟩, 0, none, none⟩
      else if apiKey = "" then
        ⟨⟨500, .err "GROQ API key not configured"⟩, 0, none, none⟩
      else
        let sent := composePrompt ctx message
        match upstream with
        | .failure => ⟨⟨500, .err "Failed to call GROQ API"⟩, 1, some sent, none⟩
        | .reply status body =>
          if status ≠ 200 then
            ⟨⟨500, .err "GROQ API returned an error"⟩, 1, some sent, some (status, body)⟩
          else match body with
          | none => ⟨⟨500, .err "Failed to parse response"⟩, 1, some sent, none⟩
          | some b =>
            match parseChatCompletion b with
            | .error _ => ⟨⟨500, .err "Failed to parse response"⟩, 1, some sent, none⟩
            | .ok [] => ⟨⟨500, .err "No response from GROQ API"⟩, 1, some sent, none⟩
            | .ok (c :: _) =>
              ⟨⟨200, .chat c (formatFixed4 elapsed ++ " seconds")⟩, 1, some sent, none⟩

/-- loadContext of main.go as a function of the context.txt read result
(none when the file cannot be read): the global Context value it assigns
once at startup.  In this embedding the value is passed unchanged to every
handler invocation, which captures that it is never mutated afterward. -/
def loadContext : Option String → String
  | none => "No context available"
  | some content =>
    let c := goTrimSpace content
    if c = "" then "No context available" else c

/-- Modelled from the spec: the Access Policy Filter (CORS middleware) of
spec section 4.1 is not present in the source files provided (main.go wires
the two routes with no CORS handling), so it is modelled from the spec text:
a fixed exact-match origin allow-list; on a match the response carries the
specific origin in its allow-origin header, otherwise no such header; fixed
allowed-methods, allowed-headers, max-age and allow-credentials headers are
always attached; an OPTIONS request short-circuits with 204, an empty body,
and no pipeline invocation. -/
def allowedOrigins : List String := ["https://saturnalia.in"]

/-- Outcome of the Access Policy Filter on one request (see allowedOrigins
for the modelling note): the headers attached, whether it short-circuited
with 204 and an empty body, and whether the request pipeline runs. -/
structure CorsOutcome where
  allowOrigin : Option String
  allowMethods : String
  allowHeaders : String
  maxAge : Nat
  allowCredentials : Bool
  shortCircuit : Option Nat
  emptyBody : Bool
  pipelineInvoked : Bool
deriving DecidableEq, Repr

/-- Modelled from the spec: the per-request decision of the Access Policy
Filter, as a function of the route path, the declared origin (none when the
Origin header is absent) and the method. -/
def corsFilter (path : String) (origin : Option String) (method : String) :
    CorsOutcome :=
  let allow := origin.bind fun o =>
    if allowedOrigins.contains o then some o else none
  let _ := path
  if method = "OPTIONS" then
    ⟨allow, "GET, POST, PUT, DELETE, OPTIONS",
      "Content-Type, Authorization, X-Requested-With", 86400, true,
      some 204, true, false⟩
  else
    ⟨allow, "GET, POST, PUT, DELETE, OPTIONS",
      "Content-Type, Authorization, X-Requested-With", 86400, true,
      none, false, true⟩

/-- A well-formed chat payload used as a concrete input. -/
def msgBody : Json := .obj [("message", .str "hi")]

/-- A well-formed upstream completion body with one candidate. -/
def goodUpstreamBody : Json :=
  .obj [("choices", .arr [.obj [("message", .obj [("content", .str "hello")])]])]

example : decodeMessage msgBody = .ok "hi" := rfl
example : parseChatCompletion goodUpstreamBody = .ok ["hello"] := rfl
example : eqFold "Message" "message" = true := rfl
example : goTrimSpace " \t hi " = "hi" := rfl
example : formatFixed4 12345 = "1.2345" := by decide
example :
    chatCompletionHandler "c" "k" ⟨"POST", some msgBody⟩
      (.reply 200 (some goodUpstreamBody)) 12345
    = ⟨⟨200, .chat "hello" "1.2345 seconds"⟩, 1, some (composePrompt "c" "hi"), none⟩ := rfl

/-- Claim C1: a request declaring origin https://saturnalia.in receives an
allow-origin header echoing exactly that origin; a request declaring the
non-allow-listed origin https://evil.example receives no allow-origin
header; and every OPTIONS request, on any route, receives 204 with an empty
body and never invokes the request pipeline. -/
theorem c1_cors_policy (path method : String) (origin : Option String) :
    (corsFilter path (some "https://saturnalia.in") method).allowOrigin
        = some "https://saturnalia.in"
  ∧ (corsFilter path (some "https://evil.example") method).allowOrigin = none
  ∧ (corsFilter path origin "OPTIONS").shortCircuit = some 204
  ∧ (corsFilter path origin "OPTIONS").emptyBody = true
  ∧ (corsFilter path origin "OPTIONS").pipelineInvoked = false := by
  unfold corsFilter allowedOrigins
  by_cases h : method = "OPTIONS" <;> simp [h]

/-- Claim C2: for a valid chat request (decoded message non-empty after
trimming, API key present) whose upstream exchange returns status 200 with a
body parsing to at least one candidate, the handler answers 200 with the
first candidate content verbatim and the elapsed time rendered as the
fixed-4-decimal seconds string (integer part, a dot, exactly four fraction
digits, and the unit suffix). -/
theorem c2_success_verbatim_first_candidate (ctx apiKey : String) (j b : Json)
    (m c : String) (cs : List String) (elapsed : Nat)
    (hd : decodeMessage j = .ok m) (hm : goTrimSpace m ≠ "") (hk : apiKey ≠ "")
    (hp : parseChatCompletion b = .ok (c :: cs)) :
    chatCompletionHandler ctx apiKey ⟨"POST", some j⟩ (.reply 200 (some b)) elapsed
      = ⟨⟨200, .chat c (formatFixed4 elapsed ++ " seconds")⟩, 1,
          some (composePrompt ctx m), none⟩
  ∧ formatFixed4 elapsed
      = toString (elapsed / 10000) ++ "." ++ pad4 (elapsed % 10000)
  ∧ (pad4 (elapsed % 10000)).length = 4 := by
  refine ⟨?_, rfl, rfl⟩
  simp [chatCompletionHandler, hd, hm, hk, hp]

/-- Witness for C2 at a concrete request, upstream body and elapsed time. -/
theorem c2_success_verbatim_first_candidate_witness :
    chatCompletionHandler "ctx" "key" ⟨"POST", some msgBody⟩
      (.reply 200 (some goodUpstreamBody)) 12345
      = ⟨⟨200, .chat "hello" (formatFixed4 12345 ++ " seconds")⟩, 1,
          some (composePrompt "ctx" "hi"), none⟩
  ∧ formatFixed4 12345 = toString (12345 / 10000) ++ "." ++ pad4 (12345 % 10000)
  ∧ (pad4 (12345 % 10000)).length = 4 :=
  c2_success_verbatim_first_candidate "ctx" "key" msgBody goodUpstreamBody
    "hi" "hello" [] 12345 rfl (by decide) (by decide) rfl

/-- Claim C6: a payload whose decoded message trims to the empty string is
answered 400 with the empty-message error, with zero upstream calls. -/
theorem c6_empty_message (ctx apiKey : String) (j : Json) (s : String)
    (upstream : UpstreamReply) (elapsed : Nat)
    (hd : decodeMessage j = .ok s) (hs : goTrimSpace s = "") :
    chatCompletionHandler ctx apiKey ⟨"POST", some j⟩ upstream elapsed
      = ⟨⟨400, .err "Message cannot be empty"⟩, 0, none, none⟩ := by
  simp [chatCompletionHandler, hd, hs]

/-- Witness for C6 at a whitespace-only concrete message. -/
theorem c6_empty_message_witness :
    chatCompletionHandler "c" "k"
      ⟨"POST", some (Json.obj [("message", Json.str " \t ")])⟩ .failure 0
      = ⟨⟨400, .err "Message cannot be empty"⟩, 0, none, none⟩ :=
  c6_empty_message "c" "k" (Json.obj [("message", Json.str " \t ")]) " \t "
    .failure 0 rfl rfl

/-- Claim C10: the payloads with no message field and with a null message
field both decode successfully to the zero value, and the handler classifies
them as empty messages (400 empty-message error, no upstream call), not as
malformed payloads. -/
theorem c10_missing_or_null_message (ctx apiKey : String)
    (upstream : UpstreamReply) (elapsed : Nat) :
    decodeMessage (.obj []) = .ok ""
  ∧ decodeMessage (.obj [("message", .null)]) = .ok ""
  ∧ chatCompletionHandler ctx apiKey ⟨"POST", some (.obj [])⟩ upstream elapsed
      = ⟨⟨400, .err "Message cannot be empty"⟩, 0, none, none⟩
  ∧ chatCompletionHandler ctx apiKey
      ⟨"POST", some (.obj [("message", .null)])⟩ upstream elapsed
      = ⟨⟨400, .err "Message cannot be empty"⟩, 0, none, none⟩ :=
  ⟨rfl, rfl, rfl, rfl⟩

/-- When the request passes method, decode and content validation and the
key is present, the handler issues exactly one upstream call carrying
exactly the composed two-turn prompt, whatever the upstream oracle and the
clock return. -/
theorem chatHandler_pipeline_run (ctx apiKey : String) (j : Json) (m : String)
    (upstream : UpstreamReply) (elapsed : Nat)
    (hd : decodeMessage j = .ok m) (hm : goTrimSpace m ≠ "") (hk : apiKey ≠ "") :
    (chatCompletionHandler ctx apiKey ⟨"POST", some j⟩ upstream elapsed).upstreamCalls = 1
  ∧ (chatCompletionHandler ctx apiKey ⟨"POST", some j⟩ upstream elapsed).sentMessages
      = some (composePrompt ctx m) := by
  cases upstream with
  | failure => simp [chatCompletionHandler, hd, hm, hk]
  | reply status body =>
    by_cases hs : status = 200
    · subst hs
      cases body with
      | none => simp [chatCompletionHandler, hd, hm, hk]
      | some b =>
        cases hp : parseChatCompletion b with
        | error e => simp [chatCompletionHandler, hd, hm, hk, hp]
        | ok choices =>
          cases choices <;> simp [chatCompletionHandler, hd, hm, hk, hp]
    · simp [chatCompletionHandler, hd, hm, hk, hs]

/-- Claim C7: prompt composition is a pure function of the static context
and the message, producing exactly a system turn (the persona template with
the context interpolated) followed by a user turn wrapping the message as
"User Query: <message>", a blank line and "Answer:"; two handler runs over
the same context and decoded message send identical prompts, whatever their
key, upstream oracle and clock. -/
theorem c7_prompt_composition (ctx msg apiKey apiKey2 : String) (j : Json)
    (m : String) (up up2 : UpstreamReply) (t t2 : Nat) :
    composePrompt ctx msg
      = [⟨"system", personaTemplate ctx⟩,
         ⟨"user", "User Query: " ++ msg ++ "\n\nAnswer:"⟩]
  ∧ (decodeMessage j = .ok m → goTrimSpace m ≠ "" → apiKey ≠ "" → apiKey2 ≠ "" →
      (chatCompletionHandler ctx apiKey ⟨"POST", some j⟩ up t).sentMessages
        = (chatCompletionHandler ctx apiKey2 ⟨"POST", some j⟩ up2 t2).sentMessages
      ∧ (chatCompletionHandler ctx apiKey ⟨"POST", some j⟩ up t).sentMessages
        = some (composePrompt ctx m)) := by
  refine ⟨rfl, fun hd hm hk hk2 => ?_⟩
  rw [(chatHandler_pipeline_run ctx apiKey j m up t hd hm hk).2,
      (chatHandler_pipeline_run ctx apiKey2 j m up2 t2 hd hm hk2).2]
  exact ⟨rfl, rfl⟩

/-- Witness for C7 at a concrete context and message, with two runs that
differ in key, upstream outcome and clock. -/
theorem c7_prompt_composition_witness :
    composePrompt "ctx" "hi"
      = [⟨"system", personaTemplate "ctx"⟩,
         ⟨"user", "User Query: " ++ "hi" ++ "\n\nAnswer:"⟩]
  ∧ ((chatCompletionHandler "ctx" "k1" ⟨"POST", some msgBody⟩ .failure 3).sentMessages
      = (chatCompletionHandler "ctx" "k2" ⟨"POST", some msgBody⟩
          (.reply 500 none) 9).sentMessages
     ∧ (chatCompletionHandler "ctx" "k1" ⟨"POST", some msgBody⟩ .failure 3).sentMessages
      = some (composePrompt "ctx" "hi")) :=
  ⟨(c7_prompt_composition "ctx" "hi" "k1" "k2" msgBody "hi"
      .failure (.reply 500 none) 3 9).1,
   (c7_prompt_composition "ctx" "hi" "k1" "k2" msgBody "hi"
      .failure (.reply 500 none) 3 9).2 rfl (by decide) (by decide) (by decide)⟩

/-- Claim C8: once a request passes method, decode and content validation,
the outcome is decided by the key value read from the environment at that
invocation: an absent key (os.Getenv yields "") gives 500 with the
not-configured error and zero upstream calls; a present key lets the
pipeline proceed to exactly one upstream call. -/
theorem c8_api_key_per_request (ctx apiKey : String) (j : Json) (m : String)
    (upstream : UpstreamReply) (elapsed : Nat)
    (hd : decodeMessage j = .ok m) (hm : goTrimSpace m ≠ "") :
    (apiKey = "" →
      chatCompletionHandler ctx apiKey ⟨"POST", some j⟩ upstream elapsed
        = ⟨⟨500, .err "GROQ API key not configured"⟩, 0, none, none⟩)
  ∧ (apiKey ≠ "" →
      (chatCompletionHandler ctx apiKey ⟨"POST", some j⟩ upstream elapsed).upstreamCalls
        = 1) := by
  constructor
  · intro hk; simp [chatCompletionHandler, hd, hm, hk]
  · intro hk
    exact (chatHandler_pipeline_run ctx apiKey j m upstream elapsed hd hm hk).1

/-- Witness for C8: the same concrete request with the key unset and set. -/
theorem c8_api_key_per_request_witness :
    (chatCompletionHandler "c" "" ⟨"POST", some msgBody⟩ .failure 0
      = ⟨⟨500, .err "GROQ API key not configured"⟩, 0, none, none⟩)
  ∧ (chatCompletionHandler "c" "k" ⟨"POST", some msgBody⟩ .failure 0).upstreamCalls
      = 1 :=
  ⟨(c8_api_key_per_request "c" "" msgBody "hi" .failure 0 rfl (by decide)).1 rfl,
   (c8_api_key_per_request "c" "k" msgBody "hi" .failure 0 rfl (by decide)).2
     (by decide)⟩

/-- Claim C9: the static context is fixed at startup from the context
document: a missing document or one that trims to empty yields the sentinel
"No context available", otherwise the trimmed document text; the embedding
passes this value unchanged to every handler invocation, so no request ever
observes a mutated value. -/
theorem c9_static_context (file : Option String) :
    (file = none → loadContext file = "No context available")
  ∧ (∀ c, file = some c → goTrimSpace c = "" →
      loadContext file = "No context available")
  ∧ (∀ c, file = some c → goTrimSpace c ≠ "" → loadContext file = goTrimSpace c) := by
  refine ⟨fun h => by simp [h, loadContext], fun c h hc => ?_, fun c h hc => ?_⟩
  · subst h; simp [loadContext, hc]
  · subst h; simp [loadContext, hc]

/-- Witness for C9: a missing document, a whitespace-only document, and a
non-empty document. -/
theorem c9_static_context_witness :
    loadContext none = "No context available"
  ∧ loadContext (some " \n ") = "No context available"
  ∧ loadContext (some " fest info ") = goTrimSpace " fest info " :=
  ⟨(c9_static_context none).1 rfl,
   (c9_static_context (some " \n ")).2.1 " \n " rfl rfl,
   (c9_static_context (some " fest info ")).2.2 " fest info " rfl (by decide)⟩

/-- Counterexample to C3 as stated: 201 is a 2xx status, yet the handler
does not proceed to structural validation of its well-formed one-candidate
body; it answers 500 with the generic upstream-error message, because the
code accepts exactly status 200. -/
theorem c3_counterexample :
    (200 ≤ 201 ∧ 201 < 300)
  ∧ chatCompletionHandler "c" "k" ⟨"POST", some msgBody⟩
      (.reply 201 (some goodUpstreamBody)) 0
      = ⟨⟨500, .err "GROQ API returned an error"⟩, 1,
          some (composePrompt "c" "hi"), some (201, some goodUpstreamBody)⟩ :=
  ⟨⟨by decide, by decide⟩, rfl⟩

/-- Claim C3 amended: any upstream status other than exactly 200 (including
other 2xx statuses) is treated uniformly as an upstream-side failure — 500
with the generic message, the raw status and body captured only by the
internal log and never echoed to the caller — while status 200 proceeds to
structural validation of the body (yielding one of the two
structural-validation errors or the success response, with nothing logged as
an upstream error). -/
theorem c3_amended_status_interpretation (ctx apiKey : String) (j : Json)
    (m : String) (status : Nat) (body : Option Json) (elapsed : Nat)
    (hd : decodeMessage j = .ok m) (hm : goTrimSpace m ≠ "") (hk : apiKey ≠ "") :
    (status ≠ 200 →
      chatCompletionHandler ctx apiKey ⟨"POST", some j⟩ (.reply status body) elapsed
        = ⟨⟨500, .err "GROQ API returned an error"⟩, 1,
            some (composePrompt ctx m), some (status, body)⟩)
  ∧ (status = 200 →
      ((chatCompletionHandler ctx apiKey ⟨"POST", some j⟩
            (.reply status body) elapsed).response.body
          = .err "Failed to parse response"
        ∨ (chatCompletionHandler ctx apiKey ⟨"POST", some j⟩
            (.reply status body) elapsed).response.body
          = .err "No response from GROQ API"
        ∨ ∃ c time,
            (chatCompletionHandler ctx apiKey ⟨"POST", some j⟩
              (.reply status body) elapsed).response = ⟨200, .chat c time⟩)
      ∧ (chatCompletionHandler ctx apiKey ⟨"POST", some j⟩
          (.reply status body) elapsed).loggedUpstream = none) := by
  constructor
  · intro hs
    simp [chatCompletionHandler, hd, hm, hk, hs]
  · intro hs
    subst hs
    cases body with
    | none => simp [chatCompletionHandler, hd, hm, hk]
    | some b =>
      cases hp : parseChatCompletion b with
      | error e => simp [chatCompletionHandler, hd, hm, hk, hp]
      | ok choices =>
        cases choices with
        | nil => simp [chatCompletionHandler, hd, hm, hk, hp]
        | cons c cs => simp [chatCompletionHandler, hd, hm, hk, hp]

/-- Witness for the amended C3 at a concrete non-200 status. -/
theorem c3_amended_status_interpretation_witness :
    chatCompletionHandler "c" "k" ⟨"POST", some msgBody⟩ (.reply 500 none) 0
      = ⟨⟨500, .err "GROQ API returned an error"⟩, 1,
          some (composePrompt "c" "hi"), some (500, none)⟩ :=
  (c3_amended_status_interpretation "c" "k" msgBody "hi" 500 none 0 rfl
    (by decide) (by decide)).1 (by decide)

/-- Counterexample to C4 as stated: a 200 reply whose body does not parse
produces "Failed to parse response" and one with an empty candidate list
produces "No response from GROQ API" — neither equals the message
"GROQ API returned an error" that a non-2xx status produces, so the
caller-facing message is not uniform across upstream failures. -/
theorem c4_counterexample :
    (chatCompletionHandler "c" "k" ⟨"POST", some msgBody⟩ (.reply 200 none) 0).response
      = ⟨500, .err "Failed to parse response"⟩
  ∧ (chatCompletionHandler "c" "k" ⟨"POST", some msgBody⟩
      (.reply 200 (some (.obj [("choices", .arr [])]))) 0).response
      = ⟨500, .err "No response from GROQ API"⟩
  ∧ (chatCompletionHandler "c" "k" ⟨"POST", some msgBody⟩
      (.reply 429 (some (.str "rate limited"))) 0).response
      = ⟨500, .err "GROQ API returned an error"⟩
  ∧ ("Failed to parse response" ≠ "GROQ API returned an error")
  ∧ ("No response from GROQ API" ≠ "GROQ API returned an error") :=
  ⟨rfl, rfl, rfl, by decide, by decide⟩

/-- Claim C4 amended: for a status-200 reply, an unparsable body yields 500
with "Failed to parse response" and a body parsing to an empty candidate
list yields 500 with "No response from GROQ API" — both generic 500 errors,
but distinct from each other and from the non-200 message rather than one
uniform upstream-failure message. -/
theorem c4_amended_structural_validation (ctx apiKey : String) (j : Json)
    (m : String) (b : Json) (elapsed : Nat)
    (hd : decodeMessage j = .ok m) (hm : goTrimSpace m ≠ "") (hk : apiKey ≠ "") :
    (chatCompletionHandler ctx apiKey ⟨"POST", some j⟩ (.reply 200 none) elapsed
      = ⟨⟨500, .err "Failed to parse response"⟩, 1, some (composePrompt ctx m), none⟩)
  ∧ (parseChatCompletion b = .error () →
      chatCompletionHandler ctx apiKey ⟨"POST", some j⟩ (.reply 200 (some b)) elapsed
        = ⟨⟨500, .err "Failed to parse response"⟩, 1,
            some (composePrompt ctx m), none⟩)
  ∧ (parseChatCompletion b = .ok [] →
      chatCompletionHandler ctx apiKey ⟨"POST", some j⟩ (.reply 200 (some b)) elapsed
        = ⟨⟨500, .err "No response from GROQ API"⟩, 1,
            some (composePrompt ctx m), none⟩) := by
  refine ⟨by simp [chatCompletionHandler, hd, hm, hk], fun hp => ?_, fun hp => ?_⟩
  · simp [chatCompletionHandler, hd, hm, hk, hp]
  · simp [chatCompletionHandler, hd, hm, hk, hp]

/-- Witness for the amended C4 at a concrete unparsable body and a concrete
empty candidate list. -/
theorem c4_amended_structural_validation_witness :
    chatCompletionHandler "c" "k" ⟨"POST", some msgBody⟩
      (.reply 200 (some (.str "x"))) 0
      = ⟨⟨500, .err "Failed to parse response"⟩, 1,
          some (composePrompt "c" "hi"), none⟩
  ∧ chatCompletionHandler "c" "k" ⟨"POST", some msgBody⟩
      (.reply 200 (some (.obj [("choices", .arr [])]))) 0
      = ⟨⟨500, .err "No response from GROQ API"⟩, 1,
          some (composePrompt "c" "hi"), none⟩ :=
  ⟨(c4_amended_structural_validation "c" "k" msgBody "hi" (.str "x") 0 rfl
      (by decide) (by decide)).2.1 rfl,
   (c4_amended_structural_validation "c" "k" msgBody "hi"
      (.obj [("choices", .arr [])]) 0 rfl (by decide) (by decide)).2.2 rfl⟩

/-- If some object field key does not fold-match the "message" tag, the
strict decode (DisallowUnknownFields) fails, whatever the other fields. -/
theorem decodeMessageFields_unknown (fields : List (String × Json)) (acc : String)
    (h : ∃ p ∈ fields, eqFold p.1 "message" = false) :
    decodeMessageFields acc fields = .error () := by
  induction fields generalizing acc with
  | nil => simp at h
  | cons kv rest ih =>
    obtain ⟨p, hp, hf⟩ := h
    obtain ⟨k, v⟩ := kv
    by_cases hk : eqFold k "message" = true
    · have hrest : ∃ q ∈ rest, eqFold q.1 "message" = false := by
        rcases List.mem_cons.mp hp with h1 | h2
        · rw [h1] at hf
          rw [hk] at hf
          cases hf
        · exact ⟨p, h2, hf⟩
      cases v with
      | null => simpa [decodeMessageFields, hk] using ih acc hrest
      | bool b => simp [decodeMessageFields, hk]
      | num n => simp [decodeMessageFields, hk]
      | str s => simpa [decodeMessageFields, hk] using ih s hrest
      | arr xs => simp [decodeMessageFields, hk]
      | obj fs => simp [decodeMessageFields, hk]
    · simp [decodeMessageFields, hk]

/-- Counterexample to C5 as stated: the payload with the single field
"Message" — a field other than "message" — decodes successfully (the
decoder matches field names ASCII-case-insensitively), and with a key and a
good upstream the operation answers 200 after one upstream call instead of
failing with 400 and no upstream call. -/
theorem c5_counterexample :
    decodeMessage (.obj [("Message", .str "hi")]) = .ok "hi"
  ∧ chatCompletionHandler "c" "k" ⟨"POST", some (.obj [("Message", .str "hi")])⟩
      (.reply 200 (some goodUpstreamBody)) 7
      = ⟨⟨200, .chat "hello" (formatFixed4 7 ++ " seconds")⟩, 1,
          some (composePrompt "c" "hi"), none⟩ :=
  ⟨rfl, rfl⟩

/-- Claim C5 amended: a payload containing any field whose key does not
match "message" ASCII-case-insensitively fails the strict decode and is
answered 400 with the invalid-format error and zero upstream calls,
regardless of whether a valid message field is also present; a key that
matches "message" up to ASCII case (such as "Message") is accepted as the
message field, not rejected as unknown. -/
theorem c5_amended_unknown_field (ctx apiKey : String)
    (fields : List (String × Json)) (upstream : UpstreamReply) (elapsed : Nat)
    (h : ∃ p ∈ fields, eqFold p.1 "message" = false) :
    chatCompletionHandler ctx apiKey ⟨"POST", some (.obj fields)⟩ upstream elapsed
      = ⟨⟨400, .err "Invalid request format"⟩, 0, none, none⟩ := by
  have hd : decodeMessage (.obj fields) = .error () :=
    decodeMessageFields_unknown fields "" h
  simp [chatCompletionHandler, hd]

/-- Witness for the amended C5 at a payload carrying a valid message field
and an extra unknown field. -/
theorem c5_amended_unknown_field_witness :
    chatCompletionHandler "c" "k"
      ⟨"POST", some (.obj [("message", .str "hi"), ("extra", .bool true)])⟩
      .failure 0
      = ⟨⟨400, .err "Invalid request format"⟩, 0, none, none⟩ :=
  c5_amended_unknown_field "c" "k"
    [("message", Json.str "hi"), ("extra", Json.bool true)] .failure 0
    ⟨("extra", Json.bool true), by simp, rfl⟩

end SatBot
